import Mathlib

/-!
Verification of the DMSC newsletter automation workflow
(`create_newsletter_campaign.py` and its test scripts).

The Python code is shallowly embedded: each workflow function becomes a
pure Lean function over explicit inputs (HTTP responses become structures
holding the status code and the fields the code reads; environment
configuration becomes a structure of optional strings).  Python string
operations (`strip`, `lower`, `in`, `endswith`, `replace`, `split`) are
modelled on `List Char`.
-/

namespace Newsletter

/-- Whitespace test used to model Python `str.strip` (ASCII whitespace). -/
def isSpaceChar (c : Char) : Bool :=
  c == ' ' || c == '\t' || c == '\n' || c == '\r'

/-- Drop leading whitespace characters. -/
def dropLeading : List Char → List Char
  | [] => []
  | c :: t => if isSpaceChar c then dropLeading t else c :: t

/-- Strip whitespace from both ends, modelling Python `str.strip()`. -/
def stripChars (l : List Char) : List Char :=
  (dropLeading (dropLeading l).reverse).reverse

/-- Python `s.strip()`. -/
def pyStrip (s : String) : String := String.mk (stripChars s.data)

/-- Python `s.lower()` (ASCII case folding, as used by the code). -/
def pyLower (s : String) : String := String.mk (s.data.map Char.toLower)

/-- Substring occurrence test on character lists (Python `pat in s`). -/
def listContains (pat : List Char) : List Char → Bool
  | [] => pat.isEmpty
  | c :: t => pat.isPrefixOf (c :: t) || listContains pat t

/-- Python `pat in s`. -/
def pyContains (s pat : String) : Bool := listContains pat.data s.data

/-- Python `s.endswith(suf)`. -/
def pyEndsWith (s suf : String) : Bool := List.isSuffixOf suf.data s.data

/-- The keyword test of `extract_meeting_info`: the stripped paragraph text,
lower-cased, contains "meeting", "speaker" or "program". -/
def keywordHit (text : String) : Bool :=
  pyContains (pyLower text) "meeting" || pyContains (pyLower text) "speaker"
    || pyContains (pyLower text) "program"

/-- Embeds `extract_meeting_info` (src/create_newsletter_campaign.py lines
180-204).  The docx parse result is `some paragraphTexts` when the bytes
parse, `none` when `Document(...)` raises.  The Python loop collects the
stripped text of each of the first 10 paragraphs that is non-empty and hits
a keyword, then returns element 0; the fallback loop returns the stripped
text of the first of the first 5 paragraphs whose stripped text is
non-empty; otherwise a fixed fallback string. -/
def extract_meeting_info : Option (List String) → String
  | none => "See newsletter for meeting details"
  | some paras =>
    let meeting_info :=
      ((paras.take 10).map (fun p => pyStrip p)).filter
        (fun text => text != "" && keywordHit text)
    match meeting_info.head? with
    | some t => t
    | none =>
      match (paras.take 5).find? (fun p => pyStrip p != "") with
      | some p => pyStrip p
      | none => "See newsletter for meeting details"

example : extract_meeting_info (some ["Hello", "", "Meeting at 7pm Thursday"])
    = "Meeting at 7pm Thursday" := by decide

example : extract_meeting_info (some ["Hello", "Nothing relevant"]) = "Hello" := by decide

example : extract_meeting_info (some []) = "See newsletter for meeting details" := by decide

/-- Python `s.replace(pat, rep)` on character lists, for the non-empty
fixed patterns the code uses: leftmost-first, non-overlapping replacement
of every occurrence. -/
def replaceList (pat rep : List Char) : List Char → List Char
  | [] => []
  | c :: t =>
    if h : pat.isEmpty = false ∧ pat.isPrefixOf (c :: t) = true then
      rep ++ replaceList pat rep ((c :: t).drop pat.length)
    else
      c :: replaceList pat rep t
termination_by l => l.length
decreasing_by
  · simp only [List.length_drop, List.length_cons]
    have hne : pat.length ≠ 0 := by
      cases pat with
      | nil => simp [List.isEmpty] at h
      | cons a l => simp
    omega
  · simp

/-- Python `s.replace(pat, rep)`. -/
def pyReplace (s pat rep : String) : String :=
  String.mk (replaceList pat.data rep.data s.data)

example : pyReplace "abcabca" "ca" "X" = "abXbX" := by
  simp +decide [pyReplace, replaceList]
example : pyReplace "aaa" "aa" "b" = "ba" := by
  simp +decide [pyReplace, replaceList]

/-- No occurrence of `pat` starts inside `l` when `l` is followed by
`tail`: for every non-empty suffix `y` of `l`, `pat` is not a prefix of
`y ++ tail`. -/
def noCrossOccur (pat tail : List Char) : List Char → Bool
  | [] => true
  | c :: t => !(pat.isPrefixOf ((c :: t) ++ tail)) && noCrossOccur pat tail t

theorem noCrossOccur_append (pat tail a b : List Char) :
    noCrossOccur pat tail (a ++ b)
      = (noCrossOccur pat (b ++ tail) a && noCrossOccur pat tail b) := by
  induction a with
  | nil => simp [noCrossOccur]
  | cons c a ih =>
    simp [noCrossOccur, ih, List.append_assoc, Bool.and_assoc]

/-- If no occurrence of `pat` starts inside `a`, replacement passes `a`
through unchanged and continues on `b`. -/
theorem replaceList_append_of_noCross (pat rep a b : List Char)
    (h : noCrossOccur pat b a = true) :
    replaceList pat rep (a ++ b) = a ++ replaceList pat rep b := by
  induction a with
  | nil => simp
  | cons c a ih =>
    simp only [noCrossOccur, List.cons_append, Bool.and_eq_true,
      Bool.not_eq_true'] at h
    have hneg : ¬(pat.isEmpty = false ∧ pat.isPrefixOf (c :: (a ++ b)) = true) := by
      intro hcon
      rw [h.1] at hcon
      exact Bool.false_ne_true hcon.2
    rw [List.cons_append, replaceList, dif_neg hneg, ih h.2, List.cons_append]

theorem isPrefixOf_append_self (l t : List Char) :
    l.isPrefixOf (l ++ t) = true := by
  induction l with
  | nil => simp [List.isPrefixOf]
  | cons a as ih => simp [List.isPrefixOf, ih]

/-- Replacement at a match: when the input starts with the (non-empty)
pattern, the pattern is consumed and replaced. -/
theorem replaceList_pattern_head (pat rep rest : List Char) (h : pat ≠ []) :
    replaceList pat rep (pat ++ rest) = rep ++ replaceList pat rep rest := by
  cases pat with
  | nil => exact absurd rfl h
  | cons p ps =>
    rw [List.cons_append, replaceList, dif_pos]
    · rw [← List.cons_append, List.drop_left]
    · refine ⟨by simp, ?_⟩
      rw [← List.cons_append]
      exact isPrefixOf_append_self (p :: ps) rest

/-- When the pattern does not occur at all, replacement is the identity. -/
theorem replaceList_of_not_contains (pat rep l : List Char)
    (h : listContains pat l = false) :
    replaceList pat rep l = l := by
  induction l with
  | nil => simp [replaceList]
  | cons c t ih =>
    simp only [listContains, Bool.or_eq_false_iff] at h
    rw [replaceList, dif_neg]
    · rw [ih h.2]
    · intro hcon
      rw [h.1] at hcon
      exact Bool.false_ne_true hcon.2

/-- The first character, if any, is not whitespace. -/
def headOk (l : List Char) : Bool :=
  match l.head? with
  | none => true
  | some c => !isSpaceChar c

/-- The last character, if any, is not whitespace. -/
def lastOk (l : List Char) : Bool :=
  match l.getLast? with
  | none => true
  | some c => !isSpaceChar c

theorem headOk_reverse (l : List Char) : headOk l.reverse = lastOk l := by
  rw [headOk, lastOk, List.head?_reverse]

theorem lastOk_reverse (l : List Char) : lastOk l.reverse = headOk l := by
  rw [headOk, lastOk, List.getLast?_reverse]

theorem headOk_dropLeading (l : List Char) : headOk (dropLeading l) = true := by
  induction l with
  | nil => rfl
  | cons c t ih =>
    rw [dropLeading]
    by_cases hc : isSpaceChar c = true
    · rw [if_pos hc]
      exact ih
    · rw [if_neg hc]
      rw [headOk]
      simp only [List.head?_cons]
      simp only [Bool.not_eq_true] at hc
      rw [hc]
      rfl

theorem dropLeading_eq_self (l : List Char) (h : headOk l = true) :
    dropLeading l = l := by
  cases l with
  | nil => rfl
  | cons c t =>
    rw [headOk] at h
    simp only [List.head?_cons, Bool.not_eq_true'] at h
    rw [dropLeading, if_neg]
    rw [h]
    exact Bool.false_ne_true

theorem dropLeading_is_suffix (l : List Char) :
    ∃ pre, l = pre ++ dropLeading l := by
  induction l with
  | nil => exact ⟨[], rfl⟩
  | cons c t ih =>
    by_cases hc : isSpaceChar c = true
    · obtain ⟨pre, hp⟩ := ih
      refine ⟨c :: pre, ?_⟩
      rw [dropLeading, if_pos hc, List.cons_append, ← hp]
    · refine ⟨[], ?_⟩
      rw [dropLeading, if_neg hc, List.nil_append]

theorem lastOk_dropLeading (l : List Char) (h : lastOk l = true) :
    lastOk (dropLeading l) = true := by
  obtain ⟨pre, hp⟩ := dropLeading_is_suffix l
  cases hd : dropLeading l with
  | nil => rfl
  | cons c t =>
    rw [lastOk] at h ⊢
    rw [hp, hd, List.getLast?_append_of_ne_nil pre (List.cons_ne_nil c t)] at h
    exact h

theorem headOk_stripChars (l : List Char) : headOk (stripChars l) = true := by
  rw [stripChars, headOk_reverse]
  have h1 : lastOk (dropLeading l).reverse = true := by
    rw [lastOk_reverse]
    exact headOk_dropLeading l
  exact lastOk_dropLeading _ h1

theorem lastOk_stripChars (l : List Char) : lastOk (stripChars l) = true := by
  rw [stripChars, lastOk_reverse]
  exact headOk_dropLeading _

theorem stripChars_eq_self (l : List Char) (h1 : headOk l = true)
    (h2 : lastOk l = true) : stripChars l = l := by
  rw [stripChars, dropLeading_eq_self l h1, dropLeading_eq_self l.reverse
    (by rw [headOk_reverse]; exact h2), List.reverse_reverse]

theorem stripChars_idem (l : List Char) :
    stripChars (stripChars l) = stripChars l :=
  stripChars_eq_self _ (headOk_stripChars l) (lastOk_stripChars l)

theorem pyStrip_idem (s : String) : pyStrip (pyStrip s) = pyStrip s := by
  rw [pyStrip, pyStrip, stripChars_idem]

/-! ### Dropbox asset discovery and share links -/

/-- An entry of a Dropbox `list_folder` response: the `name` and
`path_lower` fields the code reads. -/
structure DropboxEntry where
  name : String
  path_lower : String
deriving DecidableEq

/-- Result shape of `find_newsletter_pdf`: the `path`/`filename` dict. -/
structure PdfInfo where
  path : String
  filename : String
deriving DecidableEq

/-- Embeds `find_newsletter_pdf` (lines 74-102).  The HTTP listing is
`some entries` on status 200 and `none` otherwise.  The code filters the
entries whose `name` ends with "_Web.pdf" and returns the first one's
`path_lower` and `name`; absence otherwise. -/
def find_newsletter_pdf (listing : Option (List DropboxEntry)) : Option PdfInfo :=
  match listing with
  | none => none
  | some entries =>
    let pdf_files := entries.filter (fun e => pyEndsWith e.name "_Web.pdf")
    match pdf_files.head? with
    | some e => some { path := e.path_lower, filename := e.name }
    | none => none

/-- Embeds `find_teds_thoughts` (lines 138-161): first entry whose
lower-cased name contains "ted" and whose name ends with ".docx". -/
def find_teds_thoughts (listing : Option (List DropboxEntry)) : Option String :=
  match listing with
  | none => none
  | some entries =>
    let ted_files := entries.filter
      (fun e => pyContains (pyLower e.name) "ted" && pyEndsWith e.name ".docx")
    match ted_files.head? with
    | some e => some e.path_lower
    | none => none

/-- The two-substitution normalization applied to every share URL
(lines 122 and 133): `url.replace("dl=0", "dl=1").replace("www.dropbox.com",
"dl.dropboxusercontent.com")`. -/
def normalize_share_url (url : String) : String :=
  pyReplace (pyReplace url "dl=0" "dl=1") "www.dropbox.com" "dl.dropboxusercontent.com"

/-- Response of the `create_shared_link_with_settings` call: status code
and the `url` field read on success. -/
structure CreateLinkResponse where
  status : Nat
  url : String

/-- Response of the `list_shared_links` fallback call: status code and the
list of link URLs. -/
structure ListLinksResponse where
  status : Nat
  links : List String

/-- Embeds `create_dropbox_share_link` (lines 105-135).  Status 200:
normalize the returned URL.  Status 409: make the list call; on its status
200 with a non-empty `links` list, normalize the first link's URL;
otherwise absence.  Any other creation status: absence. -/
def create_dropbox_share_link (createResp : CreateLinkResponse)
    (listResp : ListLinksResponse) : Option String :=
  if createResp.status = 200 then
    some (normalize_share_url createResp.url)
  else if createResp.status = 409 then
    if listResp.status = 200 then
      match listResp.links.head? with
      | some u => some (normalize_share_url u)
      | none => none
    else none
  else none

/-! ### WIX media import and CMS entry -/

/-- Response of the WIX media import call: status code and the
`file.id` and `file.url` fields read on success. -/
structure WixImportResponse where
  status : Nat
  file_id : String
  file_url : String

/-- Result record of `import_file_to_wix`. -/
structure WixImportResult where
  fileId : String
  wixDocRef : String
  url : String
  displayName : String
deriving DecidableEq

/-- Embeds `import_file_to_wix` (lines 211-248).  On status 200 the
provider URL has the prefix `https://{WIX_SITE_ID}.usrfiles.com/ugd/`
replaced by `https://www.dmlsclub.com/_files/ugd/`, and the document
reference is `wix:document://v1/ugd/{file_id}/{display_name}`; any other
status yields absence. -/
def import_file_to_wix (siteId : String) (resp : WixImportResponse)
    (display_name : String) : Option WixImportResult :=
  if resp.status = 200 then
    let file_url_wix := pyReplace resp.file_url
      ("https://" ++ siteId ++ ".usrfiles.com/ugd/")
      "https://www.dmlsclub.com/_files/ugd/"
    some { fileId := resp.file_id,
           wixDocRef := "wix:document://v1/ugd/" ++ resp.file_id ++ "/" ++ display_name,
           url := file_url_wix,
           displayName := display_name }
  else none

/-- A calendar date, modelling a parsed `datetime`. -/
structure PyDate where
  year : Nat
  month : Nat
  day : Nat
deriving DecidableEq

/-- English month abbreviation used by CPython `strftime("%b")`. -/
def monthAbbrev : Nat → String
  | 1 => "Jan" | 2 => "Feb" | 3 => "Mar" | 4 => "Apr" | 5 => "May" | 6 => "Jun"
  | 7 => "Jul" | 8 => "Aug" | 9 => "Sep" | 10 => "Oct" | 11 => "Nov" | 12 => "Dec"
  | _ => ""

/-- Zero-padded two-digit day, modelling `strftime("%d")`. -/
def pad2 (n : Nat) : String :=
  if n < 10 then "0" ++ toString n else toString n

/-- The fixed pattern `strftime("%b %d, %Y")` (line 264). -/
def strftime_b_d_Y (d : PyDate) : String :=
  monthAbbrev d.month ++ " " ++ pad2 d.day ++ ", " ++ toString d.year

/-- The `data` dict of the record submitted by `create_wix_cms_entry`
(lines 251-289): title, document reference and summary always present,
`publishMonth` present exactly when a publish date was supplied. -/
structure CmsEntryData where
  title : String
  newsletter : String
  newsletterSummary : String
  publishMonth : Option String
deriving DecidableEq

/-- Embeds the record construction of `create_wix_cms_entry`: the date, if
supplied, is reformatted with `strftime("%b %d, %Y")` and stored in
`publishMonth`; otherwise the field is omitted (modelled as `none`). -/
def create_wix_cms_entry (title : String) (wix_doc_ref : String)
    (publish_date : Option PyDate) (summary : String) : CmsEntryData :=
  let formatted_date := publish_date.map strftime_b_d_Y
  { title := title,
    newsletter := wix_doc_ref,
    newsletterSummary := summary,
    publishMonth := formatted_date }

/-! ### Startup configuration validation -/

/-- The five environment-sourced configuration values (lines 32-40),
`none` when the variable is absent. -/
structure Env where
  MAILCHIMP_API_KEY : Option String
  MAILCHIMP_LIST_ID : Option String
  WIX_API_KEY : Option String
  WIX_SITE_ID : Option String
  DROPBOX_ACCESS_TOKEN : Option String

/-- Python falsiness of an optional string: `not var_value` is true for
`None` and for the empty string. -/
def missingVar : Option String → Bool
  | none => true
  | some s => s == ""

/-- The `required_vars` dict (lines 43-49), in its insertion order. -/
def required_vars (e : Env) : List (String × Option String) :=
  [("MAILCHIMP_API_KEY", e.MAILCHIMP_API_KEY),
   ("MAILCHIMP_LIST_ID", e.MAILCHIMP_LIST_ID),
   ("WIX_API_KEY", e.WIX_API_KEY),
   ("WIX_SITE_ID", e.WIX_SITE_ID),
   ("DROPBOX_ACCESS_TOKEN", e.DROPBOX_ACCESS_TOKEN)]

/-- The validation loop (lines 51-55): the first falsy value causes
`sys.exit(1)` after printing a message naming the variable, before any
workflow step runs.  `Except.error (name, 1)` models that exit. -/
def startup_check_list : List (String × Option String) → Except (String × Nat) Unit
  | [] => Except.ok ()
  | (n, v) :: rest =>
    if missingVar v then Except.error (n, 1) else startup_check_list rest

/-- Startup validation over the five required variables. -/
def startup_check (e : Env) : Except (String × Nat) Unit :=
  startup_check_list (required_vars e)

/-! ### MailChimp configuration and request shapes -/

/-- Python `s.split(sep)` for a one-character separator; never returns the
empty list. -/
def splitOnChar (sep : Char) : List Char → List (List Char)
  | [] => [[]]
  | a :: t =>
    let r := splitOnChar sep t
    if a == sep then [] :: r
    else
      match r with
      | [] => [[a]]
      | x :: xs => (a :: x) :: xs

/-- `MAILCHIMP_API_KEY.split("-")[-1]` (line 58): the data center suffix. -/
def mailchimp_dc (key : String) : String :=
  String.mk ((splitOnChar '-' key.data).getLastD [])

/-- `MAILCHIMP_BASE_URL` (line 59). -/
def MAILCHIMP_BASE_URL (key : String) : String :=
  "https://" ++ mailchimp_dc key ++ ".api.mailchimp.com/3.0"

/-- `MAILCHIMP_AUTH` (line 66): basic auth with dummy user "anystring"
and the API key as the password. -/
def MAILCHIMP_AUTH (key : String) : String × String :=
  ("anystring", key)

/-- The URL and basic-auth pair of an outgoing MailChimp request. -/
structure MailchimpRequest where
  url : String
  auth : String × String
deriving DecidableEq

/-- The request issued by `create_campaign` (lines 305-325). -/
def create_campaign_request (key : String) : MailchimpRequest :=
  { url := MAILCHIMP_BASE_URL key ++ "/campaigns",
    auth := MAILCHIMP_AUTH key }

/-- The request issued by `set_campaign_content` (lines 328-337). -/
def set_campaign_content_request (key campaign_id : String) : MailchimpRequest :=
  { url := MAILCHIMP_BASE_URL key ++ "/campaigns/" ++ campaign_id ++ "/content",
    auth := MAILCHIMP_AUTH key }

/-- The request issued by `get_campaign_web_url` (lines 340-350). -/
def get_campaign_request (key campaign_id : String) : MailchimpRequest :=
  { url := MAILCHIMP_BASE_URL key ++ "/campaigns/" ++ campaign_id,
    auth := MAILCHIMP_AUTH key }

/-! ### Template substitution (main, lines 466-468) -/

/-- The two-placeholder substitution of step 6: every occurrence of
the month placeholder is replaced by `month_name`, then every occurrence
of the link placeholder by `wix_url`. -/
def customize_template (template_html month_name wix_url : String) : String :=
  pyReplace (pyReplace template_html "\x7b\x7bMONTH\x7d\x7d" month_name)
    "\x7b\x7bWIX_LINK\x7d\x7d" wix_url

/-! ### General list helpers -/

theorem head?_filter_eq_find? {α : Type} (p : α → Bool) (l : List α) :
    (l.filter p).head? = l.find? p := by
  induction l with
  | nil => rfl
  | cons a t ih =>
    by_cases h : p a = true
    · rw [List.filter_cons_of_pos h, List.find?_cons_of_pos _ h, List.head?_cons]
    · rw [List.filter_cons_of_neg (by simpa using h),
        List.find?_cons_of_neg _ (by simpa using h), ih]

theorem find?_of_first {α : Type} (p : α → Bool) :
    ∀ (l : List α) (i : Nat) (hi : i < l.length),
      p (l.get ⟨i, hi⟩) = true →
      (∀ (j : Nat) (hj : j < l.length), j < i → p (l.get ⟨j, hj⟩) = false) →
      l.find? p = some (l.get ⟨i, hi⟩)
  | [], i, hi, _, _ => absurd hi (by simp)
  | a :: t, 0, _, hp, _ => by
    rw [List.find?_cons_of_pos _ (by simpa using hp)]
    rfl
  | a :: t, i + 1, hi, hp, hmin => by
    have h0 : p a = false := hmin 0 (by simp) (Nat.succ_pos i)
    rw [List.find?_cons_of_neg _ (by simp [h0])]
    exact find?_of_first p t i (by simpa using hi) hp
      (fun j hj hji => hmin (j + 1) (by simpa using hj) (by omega))

/-- Characterization of summary extraction as a first-match scan. -/
theorem extract_eq_find (paras : List String) :
    extract_meeting_info (some paras) =
      match ((paras.take 10).map fun p => pyStrip p).find?
          (fun text => text != "" && keywordHit text) with
      | some t => t
      | none =>
        match (paras.take 5).find? (fun p => pyStrip p != "") with
        | some p => pyStrip p
        | none => "See newsletter for meeting details" := by
  simp only [extract_meeting_info, head?_filter_eq_find?]

/-! ### Claim theorems -/

/-- C1: summary extraction scans the first 10 paragraphs and returns the
first whose stripped text is non-empty and contains one of the keywords
"meeting", "speaker" or "program" (case-insensitively); if none matches it
returns the stripped text of the first non-empty paragraph among the first
5; if no such paragraph exists, or the bytes are unparsable, it returns
"See newsletter for meeting details".  The three listed paragraph examples
behave as stated. -/
theorem C1_summary_extraction :
    extract_meeting_info none = "See newsletter for meeting details"
    ∧ extract_meeting_info (some []) = "See newsletter for meeting details"
    ∧ extract_meeting_info (some ["Hello", "", "Meeting at 7pm Thursday"])
        = "Meeting at 7pm Thursday"
    ∧ extract_meeting_info (some ["Hello", "Nothing relevant"]) = "Hello"
    ∧ (∀ paras : List String,
        extract_meeting_info (some paras) =
          match ((paras.take 10).map fun p => pyStrip p).find?
              (fun text => text != "" && keywordHit text) with
          | some t => t
          | none =>
            match (paras.take 5).find? (fun p => pyStrip p != "") with
            | some p => pyStrip p
            | none => "See newsletter for meeting details")
    ∧ (∀ (paras : List String) (i : Nat)
        (hi : i < ((paras.take 10).map fun p => pyStrip p).length),
        (((paras.take 10).map fun p => pyStrip p).get ⟨i, hi⟩ != ""
            && keywordHit (((paras.take 10).map fun p => pyStrip p).get ⟨i, hi⟩))
          = true →
        (∀ (j : Nat) (hj : j < ((paras.take 10).map fun p => pyStrip p).length),
          j < i →
          (((paras.take 10).map fun p => pyStrip p).get ⟨j, hj⟩ != ""
              && keywordHit (((paras.take 10).map fun p => pyStrip p).get ⟨j, hj⟩))
            = false) →
        extract_meeting_info (some paras)
          = ((paras.take 10).map fun p => pyStrip p).get ⟨i, hi⟩) := by
  refine ⟨by decide, by decide, by decide, by decide, extract_eq_find, ?_⟩
  intro paras i hi hp hmin
  have hfind := find?_of_first (fun text => text != "" && keywordHit text)
    ((paras.take 10).map fun p => pyStrip p) i hi hp hmin
  rw [extract_eq_find paras, hfind]

/-- C1 witness: the first-match clause applied at a concrete document whose
first paragraph hits the "speaker" keyword after stripping. -/
theorem C1_summary_extraction_witness :
    (pyStrip "  Our speaker is Jane  " != ""
        && keywordHit (pyStrip "  Our speaker is Jane  ")) = true
    ∧ extract_meeting_info (some ["  Our speaker is Jane  ", "Other"])
        = "Our speaker is Jane" := by
  refine ⟨by decide, ?_⟩
  have h := C1_summary_extraction.2.2.2.2.2 ["  Our speaker is Jane  ", "Other"]
    0 (by decide) (by decide) (fun j hj hji => absurd hji (Nat.not_lt_zero j))
  exact h.trans (by decide)

/-- C2: on the listing ["A_Web.pdf", "B.docx", "Ted_Notes.docx"], PDF
discovery selects "A_Web.pdf" (first name ending in "_Web.pdf") and
auxiliary-document discovery selects "Ted_Notes.docx" (first lower-cased
name containing "ted" and ending in ".docx"). -/
theorem C2_asset_discovery :
    find_newsletter_pdf (some [⟨"A_Web.pdf", "/a_web.pdf"⟩, ⟨"B.docx", "/b.docx"⟩,
        ⟨"Ted_Notes.docx", "/ted_notes.docx"⟩])
      = some ⟨"/a_web.pdf", "A_Web.pdf"⟩
    ∧ find_teds_thoughts (some [⟨"A_Web.pdf", "/a_web.pdf"⟩, ⟨"B.docx", "/b.docx"⟩,
        ⟨"Ted_Notes.docx", "/ted_notes.docx"⟩])
      = some "/ted_notes.docx" :=
  ⟨by decide, by decide⟩

/-- C10: for every input (parsable or not), summary extraction returns a
non-empty string on which stripping is the identity (no leading or trailing
whitespace): matched and fallback paragraphs are returned stripped and
non-empty, and the fixed fallback string is itself non-empty and
whitespace-free at both ends. -/
theorem C10_summary_nonempty_stripped (parsed : Option (List String)) :
    extract_meeting_info parsed ≠ ""
      ∧ pyStrip (extract_meeting_info parsed) = extract_meeting_info parsed := by
  cases parsed with
  | none => exact ⟨by decide, by decide⟩
  | some paras =>
    rw [extract_eq_find paras]
    cases h1 : ((paras.take 10).map fun p => pyStrip p).find?
        (fun text => text != "" && keywordHit text) with
    | some t =>
      have hpred := List.find?_some h1
      have hmem := List.mem_of_find?_eq_some h1
      obtain ⟨s, _, hs⟩ := List.mem_map.mp hmem
      have h2 : (t != "") = true ∧ keywordHit t = true := by
        simpa [Bool.and_eq_true] using hpred
      have hne : t ≠ "" := by
        intro he
        rw [he] at h2
        exact absurd h2.1 (by decide)
      have hstr : pyStrip t = t := by rw [← hs, pyStrip_idem]
      exact ⟨hne, hstr⟩
    | none =>
      cases h2 : (paras.take 5).find? (fun p => pyStrip p != "") with
      | some p =>
        have hpred := List.find?_some h2
        have hne : pyStrip p ≠ "" := by
          intro he
          rw [he] at hpred
          exact absurd hpred (by decide)
        exact ⟨hne, pyStrip_idem p⟩
      | none => exact ⟨by decide, by decide⟩

/-- The first character of `pat` occurs nowhere in `l`. -/
def headMismatch (pat l : List Char) : Bool :=
  match pat with
  | [] => false
  | p :: _ => l.all (fun c => !(p == c))

theorem noCrossOccur_of_headMismatch (pat tail l : List Char)
    (h : headMismatch pat l = true) : noCrossOccur pat tail l = true := by
  cases pat with
  | nil => simp [headMismatch] at h
  | cons p ps =>
    induction l with
    | nil => rfl
    | cons c t ih =>
      simp only [headMismatch, List.all_cons, Bool.and_eq_true,
        Bool.not_eq_true'] at h
      rw [noCrossOccur, List.cons_append, List.isPrefixOf]
      rw [h.1]
      simp only [Bool.false_and, Bool.not_false, Bool.true_and]
      exact ih (by simp only [headMismatch]; exact h.2)

/-- C3: normalization of a `www.dropbox.com` share URL of the shape
`.../s/xyz?dl=0` turns `dl=0` into `dl=1` and the host into
`dl.dropboxusercontent.com`.  The two side conditions say that no stray
occurrence of either replaced pattern starts inside the `.../s/xyz` part,
which is what "a share URL of this shape" means. -/
theorem C3_share_link_normalization (xyz : String)
    (h1 : noCrossOccur "dl=0".data "?dl=0".data
        ("https://www.dropbox.com/s/" ++ xyz).data = true)
    (h2 : noCrossOccur "www.dropbox.com".data "?dl=1".data
        ("/s/" ++ xyz).data = true) :
    normalize_share_url ("https://www.dropbox.com/s/" ++ xyz ++ "?dl=0")
      = "https://dl.dropboxusercontent.com/s/" ++ xyz ++ "?dl=1" := by
  rw [String.data_append] at h1 h2
  have e0 : replaceList "dl=0".data "dl=1".data "?dl=0".data = "?dl=1".data := by
    simp +decide [replaceList]
  have e1 : replaceList "dl=0".data "dl=1".data
      (("https://www.dropbox.com/s/".data ++ xyz.data) ++ "?dl=0".data)
      = ("https://www.dropbox.com/s/".data ++ xyz.data) ++ "?dl=1".data := by
    rw [replaceList_append_of_noCross _ _ _ _ h1, e0]
  have hsplit : "https://www.dropbox.com/s/".data
      = "https://".data ++ ("www.dropbox.com".data ++ "/s/".data) := by decide
  have hA : noCrossOccur "www.dropbox.com".data
      ("www.dropbox.com".data ++ (("/s/".data ++ xyz.data) ++ "?dl=1".data))
      "https://".data = true :=
    noCrossOccur_of_headMismatch _ _ _ (by decide)
  have e2 : replaceList "www.dropbox.com".data "dl.dropboxusercontent.com".data
      (("https://www.dropbox.com/s/".data ++ xyz.data) ++ "?dl=1".data)
      = ("https://dl.dropboxusercontent.com/s/".data ++ xyz.data)
        ++ "?dl=1".data := by
    rw [hsplit, List.append_assoc, List.append_assoc,
      List.append_assoc "www.dropbox.com".data "/s/".data,
      ← List.append_assoc "/s/".data xyz.data]
    rw [replaceList_append_of_noCross _ _ _ _ hA]
    rw [replaceList_pattern_head _ _ _ (by decide)]
    rw [replaceList_append_of_noCross _ _ _ _ h2]
    rw [replaceList_of_not_contains _ _ _ (by decide)]
    have hvan : "https://dl.dropboxusercontent.com/s/".data
        = "https://".data ++ ("dl.dropboxusercontent.com".data ++ "/s/".data) := by
      decide
    rw [hvan]
    simp [List.append_assoc]
  show String.mk (replaceList "www.dropbox.com".data
      "dl.dropboxusercontent.com".data (replaceList "dl=0".data "dl=1".data
      (("https://www.dropbox.com/s/" ++ xyz ++ "?dl=0").data)))
    = "https://dl.dropboxusercontent.com/s/" ++ xyz ++ "?dl=1"
  rw [String.data_append, String.data_append, e1, e2]
  rfl

/-- C3 witness: the concrete URL of the claim, `xyz` being the path token,
with both side conditions checked. -/
theorem C3_share_link_normalization_witness :
    noCrossOccur "dl=0".data "?dl=0".data
        ("https://www.dropbox.com/s/" ++ "xyz").data = true
    ∧ noCrossOccur "www.dropbox.com".data "?dl=1".data
        ("/s/" ++ "xyz").data = true
    ∧ normalize_share_url "https://www.dropbox.com/s/xyz?dl=0"
        = "https://dl.dropboxusercontent.com/s/xyz?dl=1" := by
  refine ⟨by decide, by decide, ?_⟩
  have h := C3_share_link_normalization "xyz" (by decide) (by decide)
  exact ((by decide : ("https://www.dropbox.com/s/xyz?dl=0" : String)
    = "https://www.dropbox.com/s/" ++ "xyz" ++ "?dl=0") ▸ (by decide :
      ("https://dl.dropboxusercontent.com/s/xyz?dl=1" : String)
        = "https://dl.dropboxusercontent.com/s/" ++ "xyz" ++ "?dl=1") ▸ h)

/-- C4: on a conflict (409) from link creation, share-link issuance uses
the first link of the fallback list call and normalizes it exactly as the
direct-creation path would (stated as equality with the direct path on
that link); any other creation failure, a failing fallback call, or an
empty fallback list yields absence. -/
theorem C4_share_link_conflict_fallback :
    (∀ (createResp : CreateLinkResponse) (listResp : ListLinksResponse)
        (u : String) (rest : List String),
        createResp.status = 409 → listResp.status = 200 →
        listResp.links = u :: rest →
        create_dropbox_share_link createResp listResp
          = create_dropbox_share_link ⟨200, u⟩ listResp)
    ∧ (∀ (createResp : CreateLinkResponse) (listResp : ListLinksResponse),
        createResp.status ≠ 200 → createResp.status ≠ 409 →
        create_dropbox_share_link createResp listResp = none)
    ∧ (∀ (createResp : CreateLinkResponse) (listResp : ListLinksResponse),
        createResp.status = 409 → listResp.status ≠ 200 →
        create_dropbox_share_link createResp listResp = none)
    ∧ (∀ (createResp : CreateLinkResponse) (listResp : ListLinksResponse),
        createResp.status = 409 → listResp.links = [] →
        create_dropbox_share_link createResp listResp = none) := by
  refine ⟨?_, ?_, ?_, ?_⟩
  · intro c l u rest h409 h200 hlinks
    simp [create_dropbox_share_link, h409, h200, hlinks]
  · intro c l hn200 hn409
    simp [create_dropbox_share_link, hn200, hn409]
  · intro c l h409 hn200
    simp [create_dropbox_share_link, h409, hn200]
  · intro c l h409 hnil
    by_cases h200 : l.status = 200
    · simp [create_dropbox_share_link, h409, h200, hnil]
    · simp [create_dropbox_share_link, h409, h200]

/-- C4 witness: a conflict with one existing link resolves to the same
result as the direct-creation path on that link. -/
theorem C4_share_link_conflict_fallback_witness :
    (CreateLinkResponse.mk 409 "unused").status = 409
    ∧ (ListLinksResponse.mk 200 ["https://www.dropbox.com/s/abc?dl=0"]).status = 200
    ∧ create_dropbox_share_link ⟨409, "unused"⟩
        ⟨200, ["https://www.dropbox.com/s/abc?dl=0"]⟩
      = create_dropbox_share_link ⟨200, "https://www.dropbox.com/s/abc?dl=0"⟩
        ⟨200, ["https://www.dropbox.com/s/abc?dl=0"]⟩ :=
  ⟨rfl, rfl,
    C4_share_link_conflict_fallback.1 ⟨409, "unused"⟩
      ⟨200, ["https://www.dropbox.com/s/abc?dl=0"]⟩
      "https://www.dropbox.com/s/abc?dl=0" [] rfl rfl rfl⟩

/-- C5 counterexample: the two-placeholder substitution is not idempotent
for all inputs.  With template "\x7b\x7bMONTH\x7d\x7d" and month
"a\x7b\x7bMONTH\x7d\x7d", one application gives "a\x7b\x7bMONTH\x7d\x7d"
but a second application gives "aa\x7b\x7bMONTH\x7d\x7d". -/
theorem C5_substitution_not_idempotent :
    customize_template
        (customize_template "\x7b\x7bMONTH\x7d\x7d" "a\x7b\x7bMONTH\x7d\x7d" "x")
        "a\x7b\x7bMONTH\x7d\x7d" "x"
      ≠ customize_template "\x7b\x7bMONTH\x7d\x7d" "a\x7b\x7bMONTH\x7d\x7d" "x" := by
  simp +decide [customize_template, pyReplace, replaceList]

/-- C5 amended: the substitution is idempotent whenever one application
leaves no occurrence of either placeholder in its result (in particular
whenever the month and URL values do not themselves contain or recreate a
placeholder); rerunning it then changes nothing. -/
theorem C5_substitution_idempotent_when_clean (template month url : String)
    (h1 : listContains "\x7b\x7bMONTH\x7d\x7d".data
        (customize_template template month url).data = false)
    (h2 : listContains "\x7b\x7bWIX_LINK\x7d\x7d".data
        (customize_template template month url).data = false) :
    customize_template (customize_template template month url) month url
      = customize_template template month url := by
  show String.mk (replaceList "\x7b\x7bWIX_LINK\x7d\x7d".data url.data
      (replaceList "\x7b\x7bMONTH\x7d\x7d".data month.data
        (customize_template template month url).data))
    = customize_template template month url
  rw [replaceList_of_not_contains _ _ _ h1, replaceList_of_not_contains _ _ _ h2]

/-- C5 amended witness: a realistic template with both placeholders and
clean values is a fixpoint of a second substitution. -/
theorem C5_substitution_idempotent_when_clean_witness :
    listContains "\x7b\x7bMONTH\x7d\x7d".data
        (customize_template "Read the \x7b\x7bMONTH\x7d\x7d issue at \x7b\x7bWIX_LINK\x7d\x7d"
          "March" "https://www.dmlsclub.com/n.pdf").data = false
    ∧ listContains "\x7b\x7bWIX_LINK\x7d\x7d".data
        (customize_template "Read the \x7b\x7bMONTH\x7d\x7d issue at \x7b\x7bWIX_LINK\x7d\x7d"
          "March" "https://www.dmlsclub.com/n.pdf").data = false
    ∧ customize_template
        (customize_template "Read the \x7b\x7bMONTH\x7d\x7d issue at \x7b\x7bWIX_LINK\x7d\x7d"
          "March" "https://www.dmlsclub.com/n.pdf")
        "March" "https://www.dmlsclub.com/n.pdf"
      = customize_template "Read the \x7b\x7bMONTH\x7d\x7d issue at \x7b\x7bWIX_LINK\x7d\x7d"
          "March" "https://www.dmlsclub.com/n.pdf" := by
  have h1 : listContains "\x7b\x7bMONTH\x7d\x7d".data
      (customize_template "Read the \x7b\x7bMONTH\x7d\x7d issue at \x7b\x7bWIX_LINK\x7d\x7d"
        "March" "https://www.dmlsclub.com/n.pdf").data = false := by
    simp +decide [customize_template, pyReplace, replaceList]
  have h2 : listContains "\x7b\x7bWIX_LINK\x7d\x7d".data
      (customize_template "Read the \x7b\x7bMONTH\x7d\x7d issue at \x7b\x7bWIX_LINK\x7d\x7d"
        "March" "https://www.dmlsclub.com/n.pdf").data = false := by
    simp +decide [customize_template, pyReplace, replaceList]
  exact ⟨h1, h2, C5_substitution_idempotent_when_clean _ _ _ h1 h2⟩

/-- C6: the submitted CMS record always carries the title, document
reference and summary; the date field holds the `strftime("%b %d, %Y")`
rendering of the supplied publish date and is entirely absent when no date
is supplied; Nov 18 2025 renders as "Nov 18, 2025". -/
theorem C6_cms_entry_fields (title ref summary : String) :
    (∀ d : PyDate,
        (create_wix_cms_entry title ref (some d) summary).publishMonth
          = some (strftime_b_d_Y d))
    ∧ (create_wix_cms_entry title ref none summary).publishMonth = none
    ∧ (∀ pd : Option PyDate,
        (create_wix_cms_entry title ref pd summary).title = title
        ∧ (create_wix_cms_entry title ref pd summary).newsletter = ref
        ∧ (create_wix_cms_entry title ref pd summary).newsletterSummary = summary)
    ∧ strftime_b_d_Y ⟨2025, 11, 18⟩ = "Nov 18, 2025" :=
  ⟨fun _ => rfl, rfl, fun _ => ⟨rfl, rfl, rfl⟩, by decide⟩

/-- C7: on a successful import, the returned record rewrites the
provider-URL prefix `https://{site-id}.usrfiles.com/ugd/` to the vanity
prefix `https://www.dmlsclub.com/_files/ugd/` and builds the document
reference `wix:document://v1/ugd/{media-id}/{display-name}`; any
non-success status yields absence.  The side condition says the prefix does
not also occur later in the provider URL. -/
theorem C7_media_import :
    (∀ (siteId fileId rest displayName : String),
        listContains ("https://" ++ siteId ++ ".usrfiles.com/ugd/").data
            rest.data = false →
        import_file_to_wix siteId
            ⟨200, fileId, "https://" ++ siteId ++ ".usrfiles.com/ugd/" ++ rest⟩
            displayName
          = some ⟨fileId,
              "wix:document://v1/ugd/" ++ fileId ++ "/" ++ displayName,
              "https://www.dmlsclub.com/_files/ugd/" ++ rest,
              displayName⟩)
    ∧ (∀ (siteId : String) (resp : WixImportResponse) (displayName : String),
        resp.status ≠ 200 → import_file_to_wix siteId resp displayName = none) := by
  constructor
  · intro siteId fileId rest displayName h
    have hne : ("https://" ++ siteId ++ ".usrfiles.com/ugd/").data ≠ [] := by
      intro hnil
      have hlen := congrArg List.length hnil
      simp +decide [String.data_append, List.length_append] at hlen
    have hurl : pyReplace ("https://" ++ siteId ++ ".usrfiles.com/ugd/" ++ rest)
        ("https://" ++ siteId ++ ".usrfiles.com/ugd/")
        "https://www.dmlsclub.com/_files/ugd/"
        = "https://www.dmlsclub.com/_files/ugd/" ++ rest := by
      show String.mk (replaceList ("https://" ++ siteId ++ ".usrfiles.com/ugd/").data
          "https://www.dmlsclub.com/_files/ugd/".data
          (("https://" ++ siteId ++ ".usrfiles.com/ugd/" ++ rest).data))
        = "https://www.dmlsclub.com/_files/ugd/" ++ rest
      rw [String.data_append ("https://" ++ siteId ++ ".usrfiles.com/ugd/") rest]
      rw [replaceList_pattern_head _ _ _ hne,
        replaceList_of_not_contains _ _ _ h]
      rfl
    simp [import_file_to_wix, hurl]
  · intro siteId resp displayName h
    simp [import_file_to_wix, h]

/-- C7 witness: a concrete successful import and the resulting record. -/
theorem C7_media_import_witness :
    listContains ("https://" ++ "site1" ++ ".usrfiles.com/ugd/").data
        "ab12/dec_Web.pdf".data = false
    ∧ import_file_to_wix "site1"
        ⟨200, "ab12",
          "https://" ++ "site1" ++ ".usrfiles.com/ugd/" ++ "ab12/dec_Web.pdf"⟩
        "dec_Web.pdf"
      = some ⟨"ab12",
          "wix:document://v1/ugd/" ++ "ab12" ++ "/" ++ "dec_Web.pdf",
          "https://www.dmlsclub.com/_files/ugd/" ++ "ab12/dec_Web.pdf",
          "dec_Web.pdf"⟩ :=
  ⟨by decide,
    C7_media_import.1 "site1" "ab12" "ab12/dec_Web.pdf" "dec_Web.pdf" (by decide)⟩

/-- C8: each of the five named configuration values is checked; validation
passes exactly when all five are present and non-empty, and any failure
exits with code 1 carrying the name of a value that is indeed missing,
before any workflow step. -/
theorem C8_startup_validation (e : Env) :
    (startup_check e = Except.ok ()
      ↔ (missingVar e.MAILCHIMP_API_KEY = false
          ∧ missingVar e.MAILCHIMP_LIST_ID = false
          ∧ missingVar e.WIX_API_KEY = false
          ∧ missingVar e.WIX_SITE_ID = false
          ∧ missingVar e.DROPBOX_ACCESS_TOKEN = false))
    ∧ (∀ (n : String) (c : Nat),
        startup_check e = Except.error (n, c) →
        c = 1 ∧ ∃ v, (n, v) ∈ required_vars e ∧ missingVar v = true) := by
  cases h1 : missingVar e.MAILCHIMP_API_KEY with
  | true =>
    refine ⟨by simp [startup_check, required_vars, startup_check_list, h1], ?_⟩
    intro n c h
    simp [startup_check, required_vars, startup_check_list, h1] at h
    exact ⟨h.2.symm, e.MAILCHIMP_API_KEY, by simp [required_vars, ← h.1], by rw [h1]⟩
  | false =>
  cases h2 : missingVar e.MAILCHIMP_LIST_ID with
  | true =>
    refine ⟨by simp [startup_check, required_vars, startup_check_list, h1, h2], ?_⟩
    intro n c h
    simp [startup_check, required_vars, startup_check_list, h1, h2] at h
    exact ⟨h.2.symm, e.MAILCHIMP_LIST_ID, by simp [required_vars, ← h.1], by rw [h2]⟩
  | false =>
  cases h3 : missingVar e.WIX_API_KEY with
  | true =>
    refine ⟨by simp [startup_check, required_vars, startup_check_list, h1, h2, h3], ?_⟩
    intro n c h
    simp [startup_check, required_vars, startup_check_list, h1, h2, h3] at h
    exact ⟨h.2.symm, e.WIX_API_KEY, by simp [required_vars, ← h.1], by rw [h3]⟩
  | false =>
  cases h4 : missingVar e.WIX_SITE_ID with
  | true =>
    refine ⟨by simp [startup_check, required_vars, startup_check_list, h1, h2, h3, h4], ?_⟩
    intro n c h
    simp [startup_check, required_vars, startup_check_list, h1, h2, h3, h4] at h
    exact ⟨h.2.symm, e.WIX_SITE_ID, by simp [required_vars, ← h.1], by rw [h4]⟩
  | false =>
  cases h5 : missingVar e.DROPBOX_ACCESS_TOKEN with
  | true =>
    refine ⟨by simp [startup_check, required_vars, startup_check_list,
      h1, h2, h3, h4, h5], ?_⟩
    intro n c h
    simp [startup_check, required_vars, startup_check_list, h1, h2, h3, h4, h5] at h
    exact ⟨h.2.symm, e.DROPBOX_ACCESS_TOKEN, by simp [required_vars, ← h.1],
      by rw [h5]⟩
  | false =>
    refine ⟨by simp [startup_check, required_vars, startup_check_list,
      h1, h2, h3, h4, h5], ?_⟩
    intro n c h
    simp [startup_check, required_vars, startup_check_list, h1, h2, h3, h4, h5] at h

/-- C8 witness: with only WIX_API_KEY missing, validation reports that
name with exit code 1; with all five present, it passes. -/
theorem C8_startup_validation_witness :
    startup_check ⟨some "k", some "l", none, some "s", some "t"⟩
        = Except.error ("WIX_API_KEY", 1)
    ∧ (1 = 1 ∧ ∃ v, ("WIX_API_KEY", v)
        ∈ required_vars ⟨some "k", some "l", none, some "s", some "t"⟩
        ∧ missingVar v = true)
    ∧ startup_check ⟨some "k", some "l", some "w", some "s", some "t"⟩
        = Except.ok () :=
  ⟨rfl,
    (C8_startup_validation ⟨some "k", some "l", none, some "s", some "t"⟩).2
      "WIX_API_KEY" 1 rfl,
    rfl⟩

theorem splitOnChar_ne_nil (sep : Char) (l : List Char) :
    splitOnChar sep l ≠ [] := by
  cases l with
  | nil => simp [splitOnChar]
  | cons a t =>
    simp only [splitOnChar]
    by_cases h : (a == sep) = true
    · simp [h]
    · rw [if_neg h]
      cases splitOnChar sep t <;> simp

theorem splitOnChar_no_sep (sep : Char) :
    ∀ (l : List Char), l.all (fun c => !(c == sep)) = true →
      splitOnChar sep l = [l]
  | [], _ => rfl
  | a :: t, h => by
    simp only [List.all_cons, Bool.and_eq_true, Bool.not_eq_true'] at h
    simp only [splitOnChar]
    rw [if_neg (by rw [h.1]; exact Bool.false_ne_true),
      splitOnChar_no_sep sep t h.2]

theorem two_le_length_splitOnChar (sep : Char) :
    ∀ (x y : List Char), 2 ≤ (splitOnChar sep (x ++ sep :: y)).length
  | [], y => by
    simp only [List.nil_append, splitOnChar, List.append_eq]
    rw [if_pos (by simp)]
    cases hr : splitOnChar sep y with
    | nil => exact absurd hr (splitOnChar_ne_nil sep y)
    | cons b l => simp
  | a :: x', y => by
    have ih := two_le_length_splitOnChar sep x' y
    simp only [List.cons_append, splitOnChar, List.append_eq]
    by_cases h : (a == sep) = true
    · rw [if_pos h]
      simp only [List.length_cons]
      omega
    · rw [if_neg h]
      cases hr : splitOnChar sep (x' ++ sep :: y) with
      | nil => exact absurd hr (splitOnChar_ne_nil sep _)
      | cons x0 xs =>
        rw [hr] at ih
        simp only [List.length_cons] at ih ⊢
        omega

theorem getLast?_splitOnChar_append (sep : Char) :
    ∀ (x y : List Char),
      (splitOnChar sep (x ++ sep :: y)).getLast?
        = (splitOnChar sep y).getLast?
  | [], y => by
    simp only [List.nil_append, splitOnChar, List.append_eq]
    rw [if_pos (by simp)]
    cases hr : splitOnChar sep y with
    | nil => exact absurd hr (splitOnChar_ne_nil sep y)
    | cons b l => rw [List.getLast?_cons_cons]
  | a :: x', y => by
    have ih := getLast?_splitOnChar_append sep x' y
    have h2 := two_le_length_splitOnChar sep x' y
    simp only [List.cons_append, splitOnChar, List.append_eq]
    by_cases h : (a == sep) = true
    · rw [if_pos h]
      cases hr : splitOnChar sep (x' ++ sep :: y) with
      | nil => exact absurd hr (splitOnChar_ne_nil sep _)
      | cons x0 xs =>
        rw [List.getLast?_cons_cons, ← hr, ih]
    · rw [if_neg h]
      cases hr : splitOnChar sep (x' ++ sep :: y) with
      | nil => exact absurd hr (splitOnChar_ne_nil sep _)
      | cons x0 xs =>
        cases xs with
        | nil =>
          rw [hr] at h2
          simp at h2
        | cons x1 xs' =>
          rw [List.getLast?_cons_cons, ← ih, hr, List.getLast?_cons_cons]

/-- The data center is the substring after the last "-" of the key. -/
theorem mailchimp_dc_after_last_dash (pre dc : String)
    (h : dc.data.all (fun c => !(c == '-')) = true) :
    mailchimp_dc (pre ++ "-" ++ dc) = dc := by
  have hdata : (pre ++ "-" ++ dc).data = pre.data ++ '-' :: dc.data := by
    rw [String.data_append, String.data_append,
      show "-".data = ['-'] from rfl, List.append_assoc]
    rfl
  rw [mailchimp_dc, hdata, List.getLastD_eq_getLast?,
    getLast?_splitOnChar_append '-' pre.data dc.data,
    splitOnChar_no_sep '-' dc.data h, List.getLast?_singleton]
  rfl

/-- C9: the campaign-service host is derived from the API key (substring
after the last "-" becomes the data-center prefix of the base URL), and
every campaign-service request uses basic auth with the fixed dummy
username "anystring" and the API key as the password. -/
theorem C9_mailchimp_base_url_and_auth :
    (∀ (pre dc : String), dc.data.all (fun c => !(c == '-')) = true →
        mailchimp_dc (pre ++ "-" ++ dc) = dc)
    ∧ (∀ key : String, MAILCHIMP_BASE_URL key
        = "https://" ++ mailchimp_dc key ++ ".api.mailchimp.com/3.0")
    ∧ (∀ key : String, MAILCHIMP_AUTH key = ("anystring", key))
    ∧ (∀ key : String,
        (create_campaign_request key).auth = ("anystring", key)
        ∧ (create_campaign_request key).url
            = MAILCHIMP_BASE_URL key ++ "/campaigns")
    ∧ (∀ key campaign_id : String,
        (set_campaign_content_request key campaign_id).auth = ("anystring", key)
        ∧ (set_campaign_content_request key campaign_id).url
            = MAILCHIMP_BASE_URL key ++ "/campaigns/" ++ campaign_id ++ "/content")
    ∧ (∀ key campaign_id : String,
        (get_campaign_request key campaign_id).auth = ("anystring", key)
        ∧ (get_campaign_request key campaign_id).url
            = MAILCHIMP_BASE_URL key ++ "/campaigns/" ++ campaign_id) :=
  ⟨mailchimp_dc_after_last_dash,
    fun _ => rfl, fun _ => rfl,
    fun _ => ⟨rfl, rfl⟩, fun _ _ => ⟨rfl, rfl⟩, fun _ _ => ⟨rfl, rfl⟩⟩

/-- C9 witness: for the key "abc123-us5" the data center is "us5". -/
theorem C9_mailchimp_base_url_and_auth_witness :
    ("us5".data.all (fun c => !(c == '-'))) = true
    ∧ mailchimp_dc ("abc123" ++ "-" ++ "us5") = "us5" :=
  ⟨by decide, C9_mailchimp_base_url_and_auth.1 "abc123" "us5" (by decide)⟩

end Newsletter
